import Mathlib

/-!
Shallow embedding of `src/calrissian/job.py` (and the parts of `main.py` the
claims touch), together with theorems settling the spec claims about the
volume-binding resolver, the Kubernetes job builder, and the finish step.

Python strings are modelled as Lean `String`s; where a Python string operation
is easier to reason about at the character level we go through `String.data`
(a Python `str` is exactly a sequence of characters, so this is faithful).
Python dicts (insertion-ordered, unique keys) are modelled as association
lists in insertion order.
-/

namespace Calrissian

/-- Embeds `k8s_safe_name` (job.py line 19): `return name.replace('_', '-')`.
Since both the pattern and the replacement are single characters, Python's
`str.replace` is exactly a character-wise substitution. -/
def k8s_safe_name (name : String) : String :=
  String.mk (name.data.map (fun c => if c = '_' then '-' else c))

/-- Embeds Python's `source.startswith(pfx)`: the characters of `pfx` are a
prefix of the characters of `source`. -/
def startswith (source pfx : String) : Bool :=
  pfx.data.isPrefixOf source.data

/-- One value of the dict `persistent_volume_entries` (job.py lines 51-59).
In the source each value is `{'prefix': prefix, 'volume':
{'persistentVolumeClaim': {'claimName': claim_name}}}`; the dict key always
equals the entry's own 'prefix' field, and the nested volume dict carries only
the claim name, so the entry flattens to these two fields. -/
structure PVEntry where
  pvPrefix : String
  claimName : String
deriving DecidableEq, Repr

/-- One element of `self.volumes`: a copy of the entry's volume dict
(`{'persistentVolumeClaim': {'claimName': ...}}`) with a 'name' key added
(job.py lines 85-86). -/
structure Volume where
  name : String
  claimName : String
deriving DecidableEq, Repr

/-- One element of `self.volume_mounts` (job.py lines 89-94). -/
structure VolumeMount where
  name : String
  mountPath : String
  subPath : String
  readOnly : Bool
deriving DecidableEq, Repr

/-- State of a `KubernetesVolumeBuilder` (job.py lines 31-37):
`persistent_volume_entries` is a dict keyed by prefix (insertion-ordered),
`volume_mounts` and `volumes` are lists. -/
structure KubernetesVolumeBuilder where
  persistent_volume_entries : List PVEntry
  volume_mounts : List VolumeMount
  volumes : List Volume
deriving DecidableEq, Repr

/-- Embeds `add_persistent_volume_entry` (job.py lines 51-59): dict assignment
`self.persistent_volume_entries[prefix] = {...}` — replaces the value in place
when the key is already present, otherwise appends at the end (Python dicts
keep insertion order). -/
def add_persistent_volume_entry (b : KubernetesVolumeBuilder)
    (pfx claim_name : String) : KubernetesVolumeBuilder :=
  let entry : PVEntry := ⟨pfx, claim_name⟩
  if b.persistent_volume_entries.any (fun e => e.pvPrefix = pfx) then
    { b with persistent_volume_entries :=
        b.persistent_volume_entries.map (fun e => if e.pvPrefix = pfx then entry else e) }
  else
    { b with persistent_volume_entries := b.persistent_volume_entries ++ [entry] }

/-- Embeds `populate_demo_values` (job.py lines 39-49): the seven hard-coded
demo entries, registered in source order. -/
def populate_demo_values (b : KubernetesVolumeBuilder) : KubernetesVolumeBuilder :=
  let b := add_persistent_volume_entry b "/calrissian/input-data" "calrissian-input-data"
  let b := add_persistent_volume_entry b "/calrissian/output-data" "calrissian-output-data"
  let b := add_persistent_volume_entry b "/calrissian/tmptmp" "calrissian-tmp"
  let b := add_persistent_volume_entry b "/calrissian/tmpout" "calrissian-tmpout"
  let b := add_persistent_volume_entry b "/Users/dcl9/Code/k8s/calrissian/cwl/tmp/out" "local-tmpout"
  let b := add_persistent_volume_entry b "/Users/dcl9/Code/k8s/calrissian/cwl/tmp/tmp" "local-tmp"
  add_persistent_volume_entry b "/Users/dcl9/Code/k8s/calrissian/cwl/" "local"

/-- Embeds `KubernetesVolumeBuilder.__init__` (job.py lines 33-37): empty dict,
demo values populated, empty mount and volume lists. -/
def KubernetesVolumeBuilder.init : KubernetesVolumeBuilder :=
  populate_demo_values ⟨[], [], []⟩

/-- Embeds `find_persistent_volume` (job.py lines 61-68): iterate the dict in
insertion order and return the first entry whose prefix the source path starts
with, else `None`. -/
def find_persistent_volume (b : KubernetesVolumeBuilder) (source : String) :
    Option PVEntry :=
  b.persistent_volume_entries.find? (fun e => startswith source e.pvPrefix)

/-- Embeds `calculate_subpath` (job.py lines 70-72): `source[len(prefix):]`,
i.e. drop the first `len(prefix)` characters. -/
def calculate_subpath (source pfx : String) : String :=
  String.mk (source.data.drop pfx.data.length)

/-- The alphabet `string.ascii_uppercase + string.ascii_lowercase` that
`random_tag` draws from (job.py lines 74-76). -/
def tag_alphabet : List Char :=
  "ABCDEFGHIJKLMNOPQRSTUVWXYZabcdefghijklmnopqrstuvwxyz".data

/-- Characterizes the possible return values of `random_tag(8)` (job.py lines
74-76): `random.choices` draws 8 characters, independently and with
replacement, from the ASCII letters. A string is a possible tag exactly when
it has length 8 and every character is an ASCII letter. The actual random
draw is modelled by passing a tag satisfying this predicate as an explicit
parameter wherever the source calls `self.random_tag(8)`. -/
def isRandomTag (t : String) : Bool :=
  t.data.length = 8 && t.data.all (fun c => c ∈ tag_alphabet)

/-- Embeds `add_volume_binding` (job.py lines 78-95) as a state transformer
with an exception channel: the result is the post-state of the builder paired
with the raised `VolumeBuilderException` message (if any). The `raise` on line
82 is the first statement after the lookup, before any mutation, so in the
error case the builder is returned unchanged. The call `self.random_tag(8)`
on line 84 is modelled by the explicit `tag` parameter. `pv['volume'].copy()`
plus `volume['name'] = name` yields a Volume with the entry's claim name and
the generated name. -/
def add_volume_binding (b : KubernetesVolumeBuilder)
    (base_name source target note : String) (writable : Bool) (tag : String) :
    KubernetesVolumeBuilder × Option String :=
  match find_persistent_volume b source with
  | none => (b, some ("Could not find a persistent volume mounted for " ++ source))
  | some pv =>
    let name := k8s_safe_name (base_name ++ "-" ++ note ++ "-" ++ tag)
    let volume : Volume := { name := name, claimName := pv.claimName }
    let volume_mount : VolumeMount :=
      { name := name
        mountPath := target
        subPath := calculate_subpath source pv.pvPrefix
        readOnly := !writable }
    ({ b with volumes := b.volumes ++ [volume]
              volume_mounts := b.volume_mounts ++ [volume_mount] }, none)

/-- Runs `add_volume_binding` once per tag in `tags`, with the same base name,
source, target, note and writability each time — the shape of N bindings
requested within one execution with the same base name and note, where the
list `tags` records the successive outputs of `random_tag(8)`. -/
def add_volume_bindings (b : KubernetesVolumeBuilder)
    (base_name source target note : String) (writable : Bool) :
    List String → KubernetesVolumeBuilder
  | [] => b
  | tag :: tags =>
    add_volume_bindings (add_volume_binding b base_name source target note writable tag).1
      base_name source target note writable tags

/-- One element of the env list built by `container_environment` (job.py lines
147-149): `{'name': name, 'value': value}`. -/
structure EnvVar where
  name : String
  value : String
deriving DecidableEq, Repr

/-- State of a `KubernetesJobBuilder` (job.py lines 100-109). The environment
dict is an insertion-ordered association list with unique keys; `stdout`,
`stderr`, `stdin` are `None` or a string (Python `if self.stdout:` treats both
`None` and the empty string as falsy). -/
structure KubernetesJobBuilder where
  name : String
  container_image : String
  environment : List (String × String)
  volume_mounts : List VolumeMount
  volumes : List Volume
  command_line : List String
  stdout : Option String
  stderr : Option String
  stdin : Option String

/-- Embeds `job_name` (job.py lines 111-112). -/
def job_name (b : KubernetesJobBuilder) : String :=
  k8s_safe_name (b.name ++ "-job")

/-- Embeds `container_name` (job.py lines 114-115). -/
def container_name (b : KubernetesJobBuilder) : String :=
  k8s_safe_name (b.name ++ "-container")

/-- Embeds `container_command` (job.py lines 120-121). -/
def container_command (_ : KubernetesJobBuilder) : List String :=
  ["/bin/sh", "-c"]

/-- Embeds `container_args` (job.py lines 123-140): copy the command line,
extend with `['>', stdout]` if stdout is truthy, then `['2>', stderr]` if
stderr is truthy, then `['<', stdin]` if stdin is truthy, and join everything
with single spaces into the sole argument. -/
def container_args (b : KubernetesJobBuilder) : List String :=
  let jc := b.command_line
  let jc := match b.stdout with
    | some s => if s = "" then jc else jc ++ [">", s]
    | none => jc
  let jc := match b.stderr with
    | some s => if s = "" then jc else jc ++ ["2>", s]
    | none => jc
  let jc := match b.stdin with
    | some s => if s = "" then jc else jc ++ ["<", s]
    | none => jc
  [String.intercalate " " jc]

/-- Embeds `container_environment` (job.py lines 142-150): one
`{'name': name, 'value': value}` dict per item of the environment dict, in
iteration order. -/
def container_environment (b : KubernetesJobBuilder) : List EnvVar :=
  b.environment.map (fun p => ⟨p.1, p.2⟩)

/-- Embeds `container_workingdir` (job.py lines 152-158):
`self.environment['HOME']`. Python raises `KeyError` when the key is absent;
that is modelled as `none`. -/
def container_workingdir (b : KubernetesJobBuilder) : Option String :=
  b.environment.lookup "HOME"

/-- The `metadata` object of the built job (job.py lines 162-164). -/
structure Metadata where
  name : String
deriving DecidableEq, Repr

/-- One element of the `containers` list (job.py lines 170-180). -/
structure Container where
  name : String
  image : String
  command : List String
  args : List String
  env : List EnvVar
  volumeMounts : List VolumeMount
  workingDir : String
deriving DecidableEq, Repr

/-- The inner `spec.template.spec` object (job.py lines 169-183). -/
structure PodSpec where
  containers : List Container
  restartPolicy : String
  volumes : List Volume
deriving DecidableEq, Repr

/-- The `spec.template` object (job.py lines 168-184). -/
structure PodTemplate where
  spec : PodSpec
deriving DecidableEq, Repr

/-- The `spec` object (job.py lines 167-185). -/
structure JobSpec where
  template : PodTemplate
deriving DecidableEq, Repr

/-- The complete job dict returned by `build` (job.py lines 160-186). -/
structure JobDescriptor where
  metadata : Metadata
  apiVersion : String
  kind : String
  spec : JobSpec
deriving DecidableEq, Repr

/-- Embeds `build` (job.py lines 160-186). The only partiality is
`container_workingdir` (a `KeyError` when the environment lacks 'HOME'), so
`build` returns `none` exactly in that case. -/
def build (b : KubernetesJobBuilder) : Option JobDescriptor :=
  match container_workingdir b with
  | none => none
  | some wd => some
    { metadata := { name := job_name b }
      apiVersion := "batch/v1"
      kind := "Job"
      spec :=
        { template :=
          { spec :=
            { containers :=
                [{ name := container_name b
                   image := b.container_image
                   command := container_command b
                   args := container_args b
                   env := container_environment b
                   volumeMounts := b.volume_mounts
                   workingDir := wd }]
              restartPolicy := "Never"
              volumes := b.volumes } } } }

/-- Embeds `CalrissianCommandLineJob.finish` (job.py lines 216-221): the
status is the hard-coded string 'success', the outputs are
`self.collect_outputs(self.outdir)` (an external cwltool routine, abstracted
as a function argument), and `self.output_callback(outputs, status)` is
modelled by returning the argument pair handed to the callback. -/
def finish {Outputs : Type} (collect_outputs : String → Outputs)
    (outdir : String) : Outputs × String :=
  (collect_outputs outdir, "success")

/-- Embeds the tail of `CalrissianCommandLineJob.run` (job.py lines 361-368):
`wait_for_kubernetes_job` (lines 212-214) calls `self.client.wait()` and
discards the result without inspecting it, then `finish` runs. The terminal
phase and container exit code reported by the cluster are threaded through as
explicit parameters to show they cannot influence the reported status. -/
def wait_then_finish {Outputs : Type} (_terminalPhase : String)
    (_containerExitCode : Int) (collect_outputs : String → Outputs)
    (outdir : String) : Outputs × String :=
  finish collect_outputs outdir

/-- Character class of the DNS-1123 subdomain pattern quoted in the
`k8s_safe_name` docstring (job.py lines 20-27): lower case alphanumeric
characters, '-' or '.'. -/
def isDNS1123Char (c : Char) : Bool :=
  ('a' ≤ c && c ≤ 'z') || ('0' ≤ c && c ≤ '9') || c = '-' || c = '.'

/-- A name is DNS-1123-subdomain-safe at the character-class level when every
character is a lowercase alphanumeric, '-' or '.'. -/
def matchesDNS1123Chars (s : String) : Bool :=
  s.data.all isDNS1123Char

/-- The sequence of redirection tokens the spec describes for one redirection
target: nothing when the target is absent (or falsy), else the operator
followed by the target. Used to state the command-assembly claim. -/
def redirectTokens (op : String) : Option String → List String
  | some s => if s = "" then [] else [op, s]
  | none => []

/-- Name alignment invariant of a volume builder: the volume names and the
volume mount names agree position by position (hence the lists have equal
length and the i-th volume and i-th mount carry the same name). -/
def aligned (b : KubernetesVolumeBuilder) : Prop :=
  b.volumes.map Volume.name = b.volume_mounts.map VolumeMount.name

/-- Example volume builder with a single registered entry: prefix `/data`,
claim `claim-A` — the configuration used by the spec's resolution example. -/
def bData : KubernetesVolumeBuilder := ⟨[⟨"/data", "claim-A"⟩], [], []⟩

/-! ## Helper lemmas -/

theorem find?_append_first {α : Type} (p : α → Bool) (l1 l2 : List α)
    (h : ∀ x ∈ l1, p x = false) : (l1 ++ l2).find? p = l2.find? p := by
  induction l1 with
  | nil => rfl
  | cons a l ih =>
    rw [List.cons_append, List.find?_cons_of_neg]
    · exact ih (fun x hx => h x (List.mem_cons_of_mem a hx))
    · simp [h a (List.mem_cons_self a l)]

theorem startswith_append (p s : String) : startswith (p ++ s) p = true := by
  simp [startswith, String.data_append, List.isPrefixOf_iff_prefix, List.prefix_append]

theorem calculate_subpath_append (p s : String) :
    calculate_subpath (p ++ s) p = s := by
  simp [calculate_subpath, String.data_append, List.drop_left]

theorem add_volume_binding_entries (b : KubernetesVolumeBuilder)
    (base source target note tag : String) (writable : Bool) :
    (add_volume_binding b base source target note writable tag).1.persistent_volume_entries
      = b.persistent_volume_entries := by
  unfold add_volume_binding
  cases find_persistent_volume b source <;> rfl

theorem k8s_safe_name_append (a b : String) :
    k8s_safe_name (a ++ b) = k8s_safe_name a ++ k8s_safe_name b := by
  simp [k8s_safe_name, String.data_append]
  rfl

theorem k8s_safe_name_of_no_underscore (t : String)
    (h : ∀ c ∈ t.data, c ≠ '_') : k8s_safe_name t = t := by
  unfold k8s_safe_name
  have hmap : t.data.map (fun c => if c = '_' then '-' else c) = t.data := by
    have := List.map_congr_left (l := t.data)
      (f := fun c => if c = '_' then '-' else c) (g := id)
      (fun c hc => by simp [h c hc])
    simpa using this
  rw [hmap]

theorem randomTag_no_underscore (t : String) (h : isRandomTag t = true) :
    ∀ c ∈ t.data, c ≠ '_' := by
  intro c hc
  have hall := (Bool.and_eq_true _ _ |>.mp h).2
  have hmem : c ∈ tag_alphabet := by
    have := List.all_eq_true.mp hall c hc
    simpa using this
  have : ∀ c ∈ tag_alphabet, c ≠ '_' := by decide
  exact this c hmem

theorem safe_name_tag_injective (p t1 t2 : String)
    (h1 : isRandomTag t1 = true) (h2 : isRandomTag t2 = true)
    (heq : k8s_safe_name (p ++ t1) = k8s_safe_name (p ++ t2)) : t1 = t2 := by
  rw [k8s_safe_name_append, k8s_safe_name_append,
    k8s_safe_name_of_no_underscore t1 (randomTag_no_underscore t1 h1),
    k8s_safe_name_of_no_underscore t2 (randomTag_no_underscore t2 h2)] at heq
  have hdata := congrArg String.data heq
  rw [String.data_append, String.data_append] at hdata
  have := List.append_cancel_left hdata
  cases t1; cases t2; exact congrArg String.mk this

/-! ## Claim theorems -/

/-- Claim C1: on a resolver holding a registered entry with prefix `p` and
claim name `c`, with no earlier-registered entry whose prefix matches,
`add_volume_binding` on source `p ++ s` succeeds and appends a volume mount
whose `subPath` equals `s` and a volume whose claim name equals `c`. -/
theorem add_volume_binding_resolution (b : KubernetesVolumeBuilder)
    (l1 l2 : List PVEntry) (p c s base target note tag : String) (writable : Bool)
    (hentries : b.persistent_volume_entries = l1 ++ ⟨p, c⟩ :: l2)
    (hearlier : ∀ e ∈ l1, startswith (p ++ s) e.pvPrefix = false) :
    ∃ b', add_volume_binding b base (p ++ s) target note writable tag = (b', none) ∧
      (∃ m, b'.volume_mounts = b.volume_mounts ++ [m] ∧ m.subPath = s) ∧
      (∃ v, b'.volumes = b.volumes ++ [v] ∧ v.claimName = c) := by
  have hfind : find_persistent_volume b (p ++ s) = some ⟨p, c⟩ := by
    unfold find_persistent_volume
    rw [hentries, find?_append_first _ _ _ hearlier]
    exact List.find?_cons_of_pos _ (startswith_append p s)
  refine ⟨_, by rw [add_volume_binding, hfind], ⟨_, rfl, ?_⟩, ⟨_, rfl, rfl⟩⟩
  exact calculate_subpath_append p s

/-- Claim C1 witness: the spec's example — prefix `/data` with claim
`claim-A` and source `/data/sub/file.txt` yields subPath `/sub/file.txt` and
claim `claim-A`. -/
theorem add_volume_binding_resolution_witness :
    ∃ b', add_volume_binding bData "base" ("/data" ++ "/sub/file.txt") "/target"
        "vol" true "aaaaaaaa" = (b', none) ∧
      (∃ m, b'.volume_mounts = bData.volume_mounts ++ [m] ∧ m.subPath = "/sub/file.txt") ∧
      (∃ v, b'.volumes = bData.volumes ++ [v] ∧ v.claimName = "claim-A") :=
  add_volume_binding_resolution bData [] [] "/data" "claim-A" "/sub/file.txt"
    "base" "/target" "vol" "aaaaaaaa" true rfl (by simp)

/-- Claim C2: `add_volume_binding` raises the unmountable-path error exactly
when no registered entry's prefix is a string-prefix of the source path, and
in that case the builder state (volumes and volume mounts included) is
unchanged. -/
theorem add_volume_binding_error_iff (b : KubernetesVolumeBuilder)
    (base source target note tag : String) (writable : Bool) :
    ((add_volume_binding b base source target note writable tag).2.isSome = true ↔
      ∀ e ∈ b.persistent_volume_entries, startswith source e.pvPrefix = false) ∧
    ((add_volume_binding b base source target note writable tag).2.isSome = true →
      (add_volume_binding b base source target note writable tag).1 = b) := by
  unfold add_volume_binding find_persistent_volume
  rcases hf : b.persistent_volume_entries.find? (fun e => startswith source e.pvPrefix)
    with _ | pv
  · rw [hf]
    rw [List.find?_eq_none] at hf
    exact ⟨⟨fun _ e he => by simpa using hf e he, fun _ => rfl⟩, fun _ => rfl⟩
  · rw [hf]
    have hmem := List.mem_of_find?_eq_some hf
    have hpv := List.find?_some hf
    refine ⟨⟨fun h => absurd h (by simp), fun hall => ?_⟩, fun h => absurd h (by simp)⟩
    exact absurd hpv (by simp [hall pv hmem])

/-- Claim C2 witness: with only prefix `/data` registered, source
`/other/file.txt` raises and leaves the builder unchanged. -/
theorem add_volume_binding_error_iff_witness :
    (add_volume_binding bData "base" "/other/file.txt" "/target" "vol" true
      "aaaaaaaa").2.isSome = true ∧
    (add_volume_binding bData "base" "/other/file.txt" "/target" "vol" true
      "aaaaaaaa").1 = bData :=
  ⟨(add_volume_binding_error_iff bData "base" "/other/file.txt" "/target" "vol"
      "aaaaaaaa" true).1.mpr (by decide),
   (add_volume_binding_error_iff bData "base" "/other/file.txt" "/target" "vol"
      "aaaaaaaa" true).2
    ((add_volume_binding_error_iff bData "base" "/other/file.txt" "/target" "vol"
      "aaaaaaaa" true).1.mpr (by decide))⟩

/-- Claim C3 is violated by the code: `"AAAAAAAA"` is a possible output of
`random_tag(8)` (every character is drawn from
`string.ascii_uppercase + string.ascii_lowercase`), yet the binding name
generated from it is `base-vol-AAAAAAAA`, which contains uppercase letters
and therefore does not match the DNS-1123 lowercase character class —
`k8s_safe_name` only replaces underscores and never lowercases. -/
theorem generated_name_not_dns1123 :
    isRandomTag "AAAAAAAA" = true ∧
    (add_volume_binding bData "base" "/data/x" "/t" "vol" true
      "AAAAAAAA").1.volumes.map Volume.name = ["base-vol-AAAAAAAA"] ∧
    matchesDNS1123Chars "base-vol-AAAAAAAA" = false := by decide

/-- Claim C4: the spec's example — command line `["echo","hi"]` with stdout
`out.txt` and stderr `err.txt` builds the single argument
`"echo hi > out.txt 2> err.txt"` — and, in general, the built argument list
is one string: the command-line tokens followed by the stdout, stderr and
stdin redirection tokens in that fixed order, joined by single spaces. -/
theorem container_args_assembly :
    container_args ⟨"n", "img", [], [], [], ["echo", "hi"], some "out.txt",
      some "err.txt", none⟩ = ["echo hi > out.txt 2> err.txt"] ∧
    ∀ b : KubernetesJobBuilder,
      container_args b = [String.intercalate " "
        (b.command_line ++ redirectTokens ">" b.stdout ++
          redirectTokens "2>" b.stderr ++ redirectTokens "<" b.stdin)] := by
  refine ⟨by decide, fun b => ?_⟩
  simp only [container_args, redirectTokens]
  rcases b.stdout with _ | o <;> rcases b.stderr with _ | e <;>
    rcases b.stdin with _ | i <;> simp <;> split_ifs <;>
    simp [List.append_assoc]

/-- Claim C5: every successfully built job descriptor has
`spec.template.spec.restartPolicy = "Never"` and exactly one container, whose
command is `["/bin/sh", "-c"]`. -/
theorem build_descriptor_invariants (b : KubernetesJobBuilder)
    (j : JobDescriptor) (h : build b = some j) :
    j.spec.template.spec.restartPolicy = "Never" ∧
    j.spec.template.spec.containers.length = 1 ∧
    j.spec.template.spec.containers.map Container.command = [["/bin/sh", "-c"]] := by
  unfold build at h
  rcases hw : container_workingdir b with _ | wd <;> rw [hw] at h
  · cases h
  · cases h
    exact ⟨rfl, rfl, rfl⟩

/-- Example job builder: name `myname`, image `img`, environment containing
`HOME`, command line `["echo", "hi"]`, no redirections. -/
def jbEx : KubernetesJobBuilder :=
  ⟨"myname", "img", [("HOME", "/outdir")], [], [], ["echo", "hi"], none, none, none⟩

/-- The descriptor `build` produces from `jbEx`. -/
def jdEx : JobDescriptor :=
  { metadata := { name := "myname-job" }
    apiVersion := "batch/v1"
    kind := "Job"
    spec :=
      { template :=
        { spec :=
          { containers :=
              [{ name := "myname-container"
                 image := "img"
                 command := ["/bin/sh", "-c"]
                 args := ["echo hi"]
                 env := [⟨"HOME", "/outdir"⟩]
                 volumeMounts := []
                 workingDir := "/outdir" }]
            restartPolicy := "Never"
            volumes := [] } } } }

/-- Claim C5 witness: the invariants hold on the concrete build of `jbEx`. -/
theorem build_descriptor_invariants_witness :
    build jbEx = some jdEx ∧
    jdEx.spec.template.spec.restartPolicy = "Never" ∧
    jdEx.spec.template.spec.containers.length = 1 ∧
    jdEx.spec.template.spec.containers.map Container.command = [["/bin/sh", "-c"]] :=
  ⟨by decide, build_descriptor_invariants jbEx jdEx (by decide)⟩

/-- Claim C6: the built env sequence has one `{name, value}` entry per key of
the environment mapping — same length, pairwise distinct names (given the
dict's unique keys), and an entry `⟨k, v⟩` appears exactly for the pairs
`(k, v)` of the mapping. -/
theorem container_environment_exact (b : KubernetesJobBuilder)
    (hkeys : (b.environment.map Prod.fst).Nodup) :
    (container_environment b).length = b.environment.length ∧
    ((container_environment b).map EnvVar.name).Nodup ∧
    (∀ k v, (k, v) ∈ b.environment ↔ (⟨k, v⟩ : EnvVar) ∈ container_environment b) := by
  refine ⟨by simp [container_environment], ?_, ?_⟩
  · have hname : (container_environment b).map EnvVar.name = b.environment.map Prod.fst := by
      simp [container_environment, List.map_map]
    rw [hname]
    exact hkeys
  · intro k v
    constructor
    · intro hmem
      exact List.mem_map.mpr ⟨(k, v), hmem, rfl⟩
    · intro hmem
      rcases List.mem_map.mp hmem with ⟨⟨k', v'⟩, hmem', heq⟩
      cases heq
      exact hmem'

/-- Claim C6 witness: on the concrete environment of `jbEx`, the env sequence
has the mapping's length, distinct names, and contains `⟨HOME, /outdir⟩`. -/
theorem container_environment_exact_witness :
    (container_environment jbEx).length = jbEx.environment.length ∧
    ((container_environment jbEx).map EnvVar.name).Nodup ∧
    (("HOME", "/outdir") ∈ jbEx.environment ↔
      (⟨"HOME", "/outdir"⟩ : EnvVar) ∈ container_environment jbEx) :=
  ⟨(container_environment_exact jbEx (by decide)).1,
   (container_environment_exact jbEx (by decide)).2.1,
   (container_environment_exact jbEx (by decide)).2.2 "HOME" "/outdir"⟩

/-- Claim C7: when several registered prefixes match the same source path,
`find_persistent_volume` returns the entry registered first (insertion
order), regardless of any later entry with a (possibly longer) matching
prefix. -/
theorem find_persistent_volume_first_match (b : KubernetesVolumeBuilder)
    (l1 l2 l3 : List PVEntry) (e1 e2 : PVEntry) (source : String)
    (hentries : b.persistent_volume_entries = l1 ++ (e1 :: (l2 ++ e2 :: l3)))
    (h1 : startswith source e1.pvPrefix = true)
    (_h2 : startswith source e2.pvPrefix = true)
    (hfirst : ∀ e ∈ l1, startswith source e.pvPrefix = false) :
    find_persistent_volume b source = some e1 := by
  unfold find_persistent_volume
  rw [hentries, find?_append_first _ _ _ hfirst]
  exact List.find?_cons_of_pos _ h1

/-- Resolver obtained by registering the broad prefix `/a` before the nested
prefix `/a/b` on an empty builder. -/
def broadNested : KubernetesVolumeBuilder :=
  add_persistent_volume_entry
    (add_persistent_volume_entry ⟨[], [], []⟩ "/a" "broad") "/a/b" "nested"

/-- Claim C7 witness: with broad prefix `/a` registered before nested prefix
`/a/b`, the path `/a/b/c` (under both) resolves to the broad entry. -/
theorem find_persistent_volume_first_match_witness :
    find_persistent_volume broadNested "/a/b/c" = some ⟨"/a", "broad"⟩ :=
  find_persistent_volume_first_match broadNested [] [] [] ⟨"/a", "broad"⟩
    ⟨"/a/b", "nested"⟩ "/a/b/c" (by decide) (by decide) (by decide)
    (by simp)

/-- Claim C8: whatever terminal phase and container exit code the cluster
reports, the finish step invokes the completion callback with status
`"success"`, and the outputs are whatever the collection routine returns for
the output directory. -/
theorem finish_always_success (Outputs : Type) (terminalPhase : String)
    (containerExitCode : Int) (collect_outputs : String → Outputs)
    (outdir : String) :
    (wait_then_finish terminalPhase containerExitCode collect_outputs outdir).2
      = "success" ∧
    (wait_then_finish terminalPhase containerExitCode collect_outputs outdir).1
      = collect_outputs outdir :=
  ⟨rfl, rfl⟩

/-- Characterization of a successful `add_volume_binding`: when the lookup
finds entry `pv`, the new state appends one volume and one mount, both named
`k8s_safe_name (base-note-tag)`. -/
theorem add_volume_binding_found (b : KubernetesVolumeBuilder)
    (base source target note tag : String) (writable : Bool) (pv : PVEntry)
    (hpv : find_persistent_volume b source = some pv) :
    add_volume_binding b base source target note writable tag =
      ({ b with
          volumes := b.volumes ++
            [⟨k8s_safe_name (base ++ "-" ++ note ++ "-" ++ tag), pv.claimName⟩]
          volume_mounts := b.volume_mounts ++
            [⟨k8s_safe_name (base ++ "-" ++ note ++ "-" ++ tag), target,
              calculate_subpath source pv.pvPrefix, !writable⟩] }, none) := by
  unfold add_volume_binding
  rw [hpv]

/-- Running `add_volume_bindings` over a tag list on a resolvable source
appends, in order, one volume name and one mount name
`k8s_safe_name (base-note-tag)` per tag. -/
theorem add_volume_bindings_names (b : KubernetesVolumeBuilder)
    (base source target note : String) (writable : Bool) (tags : List String)
    (hfound : (find_persistent_volume b source).isSome = true) :
    (add_volume_bindings b base source target note writable tags).volumes.map
        Volume.name =
      b.volumes.map Volume.name ++
        tags.map (fun t => k8s_safe_name (base ++ "-" ++ note ++ "-" ++ t)) ∧
    (add_volume_bindings b base source target note writable tags).volume_mounts.map
        VolumeMount.name =
      b.volume_mounts.map VolumeMount.name ++
        tags.map (fun t => k8s_safe_name (base ++ "-" ++ note ++ "-" ++ t)) := by
  induction tags generalizing b with
  | nil => simp [add_volume_bindings]
  | cons t ts ih =>
    obtain ⟨pv, hpv⟩ := Option.isSome_iff_exists.mp hfound
    have hstep := add_volume_binding_found b base source target note t writable pv hpv
    simp only [add_volume_bindings, hstep]
    have hfound1 : (find_persistent_volume
        ({ b with
            volumes := b.volumes ++
              [⟨k8s_safe_name (base ++ "-" ++ note ++ "-" ++ t), pv.claimName⟩]
            volume_mounts := b.volume_mounts ++
              [⟨k8s_safe_name (base ++ "-" ++ note ++ "-" ++ t), target,
                calculate_subpath source pv.pvPrefix, !writable⟩] })
        source).isSome = true := by
      simp only [find_persistent_volume] at hpv ⊢
      simp [hpv]
    have := ih _ hfound1
    rw [this.1, this.2]
    simp

/-- Claim C9 as stated is false on the code: the random tags are drawn
independently with replacement, so two bindings requested with the same base
name and note can draw the same tag — here `"aaaaaaaa"` twice, a possible
pair of `random_tag(8)` outputs — and then the two generated volume/mount
names coincide. -/
theorem duplicate_tags_duplicate_names :
    isRandomTag "aaaaaaaa" = true ∧
    (add_volume_bindings bData "base" "/data/x" "/t" "vol" true
      ["aaaaaaaa", "aaaaaaaa"]).volumes.map Volume.name =
      ["base-vol-aaaaaaaa", "base-vol-aaaaaaaa"] ∧
    ¬ ((add_volume_bindings bData "base" "/data/x" "/t" "vol" true
      ["aaaaaaaa", "aaaaaaaa"]).volumes.map Volume.name).Nodup := by decide

/-- Claim C9 amended: for N bindings requested within one execution with the
same base name and note, on a resolvable source, the generated volume and
mount names are `k8s_safe_name (base-note-tag)` per drawn tag, and they are
pairwise distinct whenever the drawn random tags are pairwise distinct. -/
theorem distinct_tags_distinct_names (b : KubernetesVolumeBuilder)
    (base source target note : String) (writable : Bool) (tags : List String)
    (hfound : (find_persistent_volume b source).isSome = true)
    (hvalid : ∀ t ∈ tags, isRandomTag t = true)
    (htags : tags.Nodup) :
    ((add_volume_bindings b base source target note writable tags).volumes.map
        Volume.name =
      b.volumes.map Volume.name ++
        tags.map (fun t => k8s_safe_name (base ++ "-" ++ note ++ "-" ++ t))) ∧
    ((add_volume_bindings b base source target note writable tags).volume_mounts.map
        VolumeMount.name =
      b.volume_mounts.map VolumeMount.name ++
        tags.map (fun t => k8s_safe_name (base ++ "-" ++ note ++ "-" ++ t))) ∧
    (tags.map (fun t => k8s_safe_name (base ++ "-" ++ note ++ "-" ++ t))).Nodup := by
  have hnames := add_volume_bindings_names b base source target note writable tags hfound
  refine ⟨hnames.1, hnames.2, ?_⟩
  exact List.Nodup.map_on
    (fun t1 h1 t2 h2 heq =>
      safe_name_tag_injective (base ++ "-" ++ note ++ "-") t1 t2
        (hvalid t1 h1) (hvalid t2 h2) heq)
    htags

/-- Claim C9 (amended) witness: two bindings on `bData` with distinct tags
`aaaaaaaa` and `bbbbbbbb` yield the two distinct names
`base-vol-aaaaaaaa` and `base-vol-bbbbbbbb`. -/
theorem distinct_tags_distinct_names_witness :
    ((add_volume_bindings bData "base" "/data/x" "/t" "vol" true
      ["aaaaaaaa", "bbbbbbbb"]).volumes.map Volume.name =
      bData.volumes.map Volume.name ++
        ["aaaaaaaa", "bbbbbbbb"].map
          (fun t => k8s_safe_name ("base" ++ "-" ++ "vol" ++ "-" ++ t))) ∧
    ((add_volume_bindings bData "base" "/data/x" "/t" "vol" true
      ["aaaaaaaa", "bbbbbbbb"]).volume_mounts.map VolumeMount.name =
      bData.volume_mounts.map VolumeMount.name ++
        ["aaaaaaaa", "bbbbbbbb"].map
          (fun t => k8s_safe_name ("base" ++ "-" ++ "vol" ++ "-" ++ t))) ∧
    (["aaaaaaaa", "bbbbbbbb"].map
      (fun t => k8s_safe_name ("base" ++ "-" ++ "vol" ++ "-" ++ t))).Nodup :=
  distinct_tags_distinct_names bData "base" "/data/x" "/t" "vol" true
    ["aaaaaaaa", "bbbbbbbb"] (by decide) (by decide) (by decide)

/-- Claim C10: a successful `add_volume_binding` call appends exactly one
volume and exactly one volume mount (removing or modifying nothing), the two
appended elements carry the same name, and the position-wise name alignment
of the two sequences (which implies equal length) is preserved. -/
theorem add_volume_binding_appends (b : KubernetesVolumeBuilder)
    (base source target note tag : String) (writable : Bool)
    (hok : (add_volume_binding b base source target note writable tag).2 = none) :
    (add_volume_binding b base source target note writable tag).1.volumes.length
      = b.volumes.length + 1 ∧
    (add_volume_binding b base source target note writable tag).1.volume_mounts.length
      = b.volume_mounts.length + 1 ∧
    (∃ v m,
      (add_volume_binding b base source target note writable tag).1.volumes
        = b.volumes ++ [v] ∧
      (add_volume_binding b base source target note writable tag).1.volume_mounts
        = b.volume_mounts ++ [m] ∧
      v.name = m.name) ∧
    (aligned b →
      aligned (add_volume_binding b base source target note writable tag).1) := by
  rcases hpv : find_persistent_volume b source with _ | pv
  · exfalso
    unfold add_volume_binding at hok
    rw [hpv] at hok
    simp at hok
  · rw [add_volume_binding_found b base source target note tag writable pv hpv]
    refine ⟨by simp, by simp, ⟨_, _, rfl, rfl, rfl⟩, ?_⟩
    intro hal
    simp only [aligned] at hal ⊢
    simp [hal]

/-- Claim C10 witness: a successful binding on `bData` appends one aligned
volume/mount pair. -/
theorem add_volume_binding_appends_witness :
    (add_volume_binding bData "base" "/data/x" "/t" "vol" true
      "aaaaaaaa").1.volumes.length = bData.volumes.length + 1 ∧
    (add_volume_binding bData "base" "/data/x" "/t" "vol" true
      "aaaaaaaa").1.volume_mounts.length = bData.volume_mounts.length + 1 ∧
    (∃ v m,
      (add_volume_binding bData "base" "/data/x" "/t" "vol" true
        "aaaaaaaa").1.volumes = bData.volumes ++ [v] ∧
      (add_volume_binding bData "base" "/data/x" "/t" "vol" true
        "aaaaaaaa").1.volume_mounts = bData.volume_mounts ++ [m] ∧
      v.name = m.name) ∧
    (aligned bData →
      aligned (add_volume_binding bData "base" "/data/x" "/t" "vol" true
        "aaaaaaaa").1) :=
  add_volume_binding_appends bData "base" "/data/x" "/t" "vol" "aaaaaaaa" true
    (by decide)

end Calrissian
